import Mathlib

/-!
Shallow embedding of `src/points-to-bq/main_gcf.py` (Z316 loyalty program,
points-to-BigQuery pipeline).

Modelling conventions:
* Python floats are modelled as rationals (`ℚ`); the claims under study are
  exact arithmetic identities.
* UTC timestamps are modelled as whole minutes since a fixed epoch that falls
  on a Monday at 00:00 UTC (so Python's `weekday()` convention Monday = 0 is
  `(t / 1440) % 7`; Lean's `/` and `%` on `ℤ` agree with Python's floor
  semantics for positive divisors).  The `America/Sao_Paulo` zone has been
  fixed at UTC-03:00 with no daylight saving since 2019, so `astimezone` is a
  constant shift of -180 minutes for every timestamp relevant here.
* `datetime.time(h, m, s)` comparisons in the source are modelled on the
  minutes-of-day scale (all window bounds in the source are whole hours).
* Python dicts backing the JSON documents are modelled as structures whose
  fields are `Option`-valued where the source can raise `KeyError`; the
  source's `try/except` blocks become `Option`/`Except` plumbing.
-/

/-- Environment-derived configuration of the pipeline (module-level constants
`PROJECT_ID`, `SOURCE_IDENTIFIER`, `VERSION_CONTROL`, `FIDELIDADE_MULTIPLIER`,
`MORNING_MULTIPLIER`, `HAPPYHOUR_MULTIPLIER` in the source). -/
structure Config where
  PROJECT_ID : String
  SOURCE_IDENTIFIER : String
  VERSION_CONTROL : String
  FIDELIDADE_MULTIPLIER : ℚ
  MORNING_MULTIPLIER : ℚ
  HAPPYHOUR_MULTIPLIER : ℚ
deriving DecidableEq

/-- Embeds `convert_to_sao_paulo_time`: `America/Sao_Paulo` is UTC-03:00
(no DST since 2019), i.e. a shift of -180 minutes. -/
def convert_to_sao_paulo_time (utc_timestamp : ℤ) : ℤ :=
  utc_timestamp - 180

/-- The `.time()` of a timestamp, as minutes of the day in `[0, 1440)`. -/
def timeOfDay (t : ℤ) : ℤ := t % 1440

/-- The `.weekday()` of a timestamp (Monday = 0, ..., Friday = 4, Sunday = 6);
the epoch of the minute scale is a Monday 00:00. -/
def weekday (t : ℤ) : ℤ := (t / 1440) % 7

/-- Maximal run of ASCII digits at the head of the list, with the remainder
(the backtracking-free reading of a greedy `\d+` followed by a character that
is not a digit). -/
def takeDigits : List Char → List Char × List Char
  | [] => ([], [])
  | c :: cs =>
    if c.isDigit then (c :: (takeDigits cs).1, (takeDigits cs).2)
    else ([], c :: cs)

/-- Numeric value of a digit run (base-10 positional reading). -/
def digitsToNat (ds : List Char) : ℕ :=
  ds.foldl (fun acc c => 10 * acc + (c.toNat - '0'.toNat)) 0

/-- Value of `float("<d1>.<d2>")` for digit runs `d1`, `d2`, as a rational. -/
def decimalValue (d1 d2 : List Char) : ℚ :=
  (digitsToNat d1 : ℚ) + (digitsToNat d2 : ℚ) / (10 : ℚ) ^ d2.length

/-- Attempts to match the anchored pattern `{{\d+\.\d+}}` at the head of the
list, returning the captured decimal's value and the remainder after the
match.  Because `\d` cannot match `.` or a closing brace, the greedy `\d+`
needs no backtracking and maximal munch is exact. -/
def tryMatch (l : List Char) : Option (ℚ × List Char) :=
  if l.take 2 = ['{', '{'] then
    let t := l.drop 2
    let d1 := (takeDigits t).1
    let r1 := (takeDigits t).2
    if d1.isEmpty ∨ r1.take 1 ≠ ['.'] then none
    else
      let r2 := r1.drop 1
      let d2 := (takeDigits r2).1
      let r3 := (takeDigits r2).2
      if d2.isEmpty ∨ r3.take 2 ≠ ['}', '}'] then none
      else some (decimalValue d1 d2, r3.drop 2)
  else none

theorem takeDigits_snd_length (l : List Char) : (takeDigits l).2.length ≤ l.length := by
  induction l with
  | nil => simp [takeDigits]
  | cons c cs ih =>
    by_cases hc : c.isDigit <;> simp [takeDigits, hc]
    omega

theorem decimalValue_nonneg (d1 d2 : List Char) : 0 ≤ decimalValue d1 d2 := by
  unfold decimalValue
  positivity

theorem tryMatch_some {l : List Char} {p : ℚ × List Char}
    (h : tryMatch l = some p) : p.2.length < l.length ∧ 0 ≤ p.1 := by
  simp only [tryMatch] at h
  split at h
  case isFalse => exact absurd h (by simp)
  case isTrue htake =>
    split at h
    case isTrue => exact absurd h (by simp)
    case isFalse hc1 =>
      split at h
      case isTrue => exact absurd h (by simp)
      case isFalse hc2 =>
        rw [Option.some.injEq] at h
        subst h
        refine ⟨?_, decimalValue_nonneg _ _⟩
        rw [not_or, not_not] at hc1 hc2
        have h2 : l.length ≥ 2 := by
          have := congrArg List.length htake
          simp only [List.length_take, List.length_cons, List.length_nil] at this
          omega
        have h3 : (takeDigits (l.drop 2)).2.length ≤ l.length - 2 := by
          have := takeDigits_snd_length (l.drop 2)
          simpa only [List.length_drop] using this
        have h4 : (takeDigits (l.drop 2)).2.length ≥ 1 := by
          have := congrArg List.length hc1.2
          simp only [List.length_take, List.length_cons, List.length_nil] at this
          omega
        have h5 : (takeDigits ((takeDigits (l.drop 2)).2.drop 1)).2.length ≤
            (takeDigits (l.drop 2)).2.length - 1 := by
          have := takeDigits_snd_length ((takeDigits (l.drop 2)).2.drop 1)
          simpa only [List.length_drop] using this
        have h6 : (takeDigits ((takeDigits (l.drop 2)).2.drop 1)).2.length ≥ 2 := by
          have := congrArg List.length hc2.2
          simp only [List.length_take, List.length_cons, List.length_nil] at this
          omega
        simp only [List.length_drop]
        omega

/-- One fuel unit is spent per scan position; `tryMatch` consumes at least one
character on success, so fuel equal to the list length never runs out and the
fuel-indexed scanner agrees with the unbounded one.  Fuel keeps the recursion
structural (kernel-reducible). -/
def findMarkersAux : ℕ → List Char → List ℚ
  | 0, _ => []
  | _ + 1, [] => []
  | fuel + 1, c :: cs =>
    match tryMatch (c :: cs) with
    | some vr => vr.1 :: findMarkersAux fuel vr.2
    | none => findMarkersAux fuel cs

/-- Embeds `re.findall(r'\x7b\x7b(\d+\.\d+)\x7d\x7d', obs)` followed by
`float` on each capture: leftmost, non-overlapping scan of the whole list. -/
def findMarkers (l : List Char) : List ℚ := findMarkersAux l.length l

/-- Embeds `extract_multiplier`: the matched multipliers' minimum (Python's
`min` over a nonempty list is a left fold of binary `min`), or `0.0` when the
pattern does not occur. -/
def extract_multiplier (obs : String) : ℚ :=
  match findMarkers obs.toList with
  | [] => 0
  | m :: ms => ms.foldl min m

theorem foldl_min_mem (a : ℚ) (l : List ℚ) : l.foldl min a ∈ a :: l := by
  induction l generalizing a with
  | nil => simp
  | cons c cs ih =>
    rw [List.foldl_cons]
    rcases List.mem_cons.mp (ih (min a c)) with h | h
    · rw [h]
      rcases le_total a c with hac | hac
      · simp [min_eq_left hac]
      · simp [min_eq_right hac]
    · simp [h]

theorem foldl_min_le (a : ℚ) (l : List ℚ) : ∀ x ∈ a :: l, l.foldl min a ≤ x := by
  induction l generalizing a with
  | nil => intro x hx; simp at hx; simp [hx]
  | cons c cs ih =>
    intro x hx
    rw [List.foldl_cons]
    rcases List.mem_cons.mp hx with h | h
    · subst h
      exact le_trans (ih (min x c) (min x c) (by simp)) (min_le_left x c)
    · rcases List.mem_cons.mp h with h2 | h2
      · subst h2
        exact le_trans (ih (min a x) (min a x) (by simp)) (min_le_right a x)
      · exact ih (min a c) x (by simp [h2])

/-- Embeds `get_special_multiplier`.  The module imports only the `datetime`
class (`from datetime import datetime`), so the window bounds written
`datetime.time(5, 0, 0)` / `datetime.time(10, 0, 0)` on the morning check and
`datetime.time(18, 0, 0)` / `datetime.time(22, 0, 0)` on the happy-hour check
apply the *instance-method descriptor* `datetime.time` to an `int` and raise
`TypeError`.  The morning comparison is evaluated unconditionally on every
call, so the function always raises before any rate is computed or returned;
the raised exception is modelled as `none`.  (The enclosing lines convert the
timestamp and read `.time()`/`.weekday()` without error first; no observable
result depends on them.) -/
def get_special_multiplier (_cfg : Config) (_processing_timestamp : ℤ) : Option ℚ :=
  none

/-- One line item of the PDV order document (an element of
`pedido_pdv['itens']`).  `idProduto` is read with `item['idProduto']`
(required access); the numeric fields are read with `.get(key, 0)` and their
JSON numeric values are modelled as already-parsed rationals. -/
structure Item where
  idProduto : String
  descricao : Option String
  quantidade : Option ℚ
  valor : Option ℚ
  desconto : Option ℚ
deriving DecidableEq

/-- The inner dict `produto['produto']` of a product document. -/
structure ProdutoInner where
  preco_custo : Option ℚ
  obs : Option String
  categoria : Option String
deriving DecidableEq

/-- One product metadata document. -/
structure ProdutoDoc where
  produto : ProdutoInner
deriving DecidableEq

/-- The per-message product metadata mapping keyed by product id
(`data['produto']`), with `.get` as association-list lookup. -/
abbrev ProdutoMap := List (String × ProdutoDoc)

/-- The `contato` dict of the PDV order document. -/
structure PdvContato where
  nome : Option String
  cpfCnpj : Option String
deriving DecidableEq

/-- The `retorno.pedido` dict of the PDV order document. -/
structure PdvPedido where
  id : Option String
  numero : Option String
  data : Option String
  totalProdutos : Option String
  totalVenda : Option String
  observacoes : Option String
  formaPagamento : Option String
  contato : Option PdvContato
  itens : Option (List Item)
deriving DecidableEq

/-- The `retorno` dict of the PDV order document. -/
structure PdvRetorno where
  pedido : Option PdvPedido
deriving DecidableEq

/-- The PDV (point-of-sale) order document. -/
structure PdvData where
  retorno : Option PdvRetorno
deriving DecidableEq

/-- The `pedido` dict inside a pesquisa document's `pedidos[i]`. -/
structure PesquisaPedido where
  nome_vendedor : Option String
  id_vendedor : Option String
deriving DecidableEq

/-- One element of the pesquisa document's `retorno.pedidos` list. -/
structure PesquisaPedidoWrap where
  pedido : Option PesquisaPedido
deriving DecidableEq

/-- The `retorno` dict of the pesquisa (survey/commission) document. -/
structure PesquisaRetorno where
  pedidos : Option (List PesquisaPedidoWrap)
deriving DecidableEq

/-- The pesquisa (survey/commission) document. -/
structure PesquisaData where
  retorno : Option PesquisaRetorno
deriving DecidableEq

/-- Embeds `extract_pesquisa_data`: seller name/id from
`retorno['pedidos'][0]['pedido']`, or `(None, None)` on `KeyError`/
`IndexError`. -/
def extract_pesquisa_data (pesquisa_data : PesquisaData) : Option String × Option String :=
  match pesquisa_data.retorno.bind fun retorno =>
      retorno.pedidos.bind fun pedidos =>
      pedidos.head?.bind fun first =>
      first.pedido.bind fun pedido =>
      pedido.nome_vendedor.bind fun nome_vendedor =>
      pedido.id_vendedor.map fun id_vendedor => (nome_vendedor, id_vendedor) with
  | some nv => (some nv.1, some nv.2)
  | none => (none, none)

/-- Embeds `float(s)` for the plain decimal strings this pipeline feeds it:
optional leading minus sign, digit run, optional decimal point and fractional
digit run, at least one digit overall.  Returns `none` where `float` raises
`ValueError`. -/
def parseUnsigned (l : List Char) : Option ℚ :=
  if (takeDigits l).2.isEmpty then
    if (takeDigits l).1.isEmpty then none else some (digitsToNat (takeDigits l).1 : ℚ)
  else if (takeDigits l).2.take 1 = ['.'] then
    let frac := (takeDigits l).2.drop 1
    if (takeDigits frac).2.isEmpty then
      if (takeDigits l).1.isEmpty ∧ (takeDigits frac).1.isEmpty then none
      else some (decimalValue (takeDigits l).1 (takeDigits frac).1)
    else none
  else none

/-- Sign-handling wrapper for `float(s)`. -/
def parseFloat (s : String) : Option ℚ :=
  match s.toList with
  | [] => none
  | c :: cs => if c = '-' then (parseUnsigned cs).map (fun q => -q) else parseUnsigned (c :: cs)

/-- Gregorian leap-year test used by the calendar validation of `strptime`. -/
def isLeapYear (y : ℕ) : Bool := (y % 4 = 0 ∧ y % 100 ≠ 0) ∨ y % 400 = 0

/-- Number of days of month `m` in year `y`. -/
def daysInMonth (y m : ℕ) : ℕ :=
  if m = 2 then (if isLeapYear y then 29 else 28)
  else if m = 4 ∨ m = 6 ∨ m = 9 ∨ m = 11 then 30
  else 31

/-- The decimal digit character for `n % 10`. -/
def natDigitChar (n : ℕ) : Char := Char.ofNat ('0'.toNat + n % 10)

/-- Decimal digits of `n`, most significant first (empty for 0); the first
argument is recursion fuel, for which `n + 1` always suffices. -/
def natToDigits : ℕ → ℕ → List Char
  | 0, _ => []
  | _ + 1, 0 => []
  | fuel + 1, n => natToDigits fuel (n / 10) ++ [natDigitChar n]

/-- Zero-padded decimal rendering of `n` to at least `width` digits. -/
def padNat (width n : ℕ) : String :=
  let ds := if n = 0 then ['0'] else natToDigits (n + 1) n
  String.mk (List.replicate (width - ds.length) '0' ++ ds)

/-- Embeds `datetime.strptime(s, '%d/%m/%Y').strftime('%Y-%m-%d')`: one or
two digits for day and month, four digits for the year, a validated calendar
date, re-rendered as zero-padded ISO `YYYY-MM-DD`.  Returns `none` where
`strptime` raises `ValueError`. -/
def parseDateDDMMYYYY (s : String) : Option String :=
  let l := s.toList
  let d1 := (takeDigits l).1
  let r1 := (takeDigits l).2
  if d1.length < 1 ∨ 2 < d1.length ∨ r1.take 1 ≠ ['/'] then none
  else
    let l2 := r1.drop 1
    let m1 := (takeDigits l2).1
    let r2 := (takeDigits l2).2
    if m1.length < 1 ∨ 2 < m1.length ∨ r2.take 1 ≠ ['/'] then none
    else
      let l3 := r2.drop 1
      let y1 := (takeDigits l3).1
      let r3 := (takeDigits l3).2
      if y1.length ≠ 4 ∨ r3 ≠ [] then none
      else
        let d := digitsToNat d1
        let m := digitsToNat m1
        let y := digitsToNat y1
        if 1 ≤ m ∧ m ≤ 12 ∧ 1 ≤ d ∧ d ≤ daysInMonth y m then
          some (padNat 4 y ++ "-" ++ padNat 2 m ++ "-" ++ padNat 2 d)
        else none

/-- The nine header values extracted by `extract_pdv_data`'s `try` block. -/
structure PdvHeader where
  pedido_id : String
  pedido_numero : String
  pedido_dia : String
  total_produtos : ℚ
  total_venda : ℚ
  observacoes : String
  forma_pagamento : String
  cliente_nome : String
  cliente_cpf : String
deriving DecidableEq

/-- The body of `extract_pdv_data`'s `try` block: each dict access that can
raise `KeyError` and each parse that can raise `ValueError` is one `Option`
step, in source order. -/
def extract_pdv_data_core (pdv_data : PdvData) : Option PdvHeader :=
  pdv_data.retorno.bind fun retorno =>
  retorno.pedido.bind fun pedido_pdv =>
  pedido_pdv.id.bind fun pedido_id =>
  pedido_pdv.numero.bind fun pedido_numero =>
  pedido_pdv.data.bind fun data_str =>
  (parseDateDDMMYYYY data_str).bind fun pedido_dia =>
  pedido_pdv.totalProdutos.bind fun tp_str =>
  (parseFloat tp_str).bind fun total_produtos =>
  pedido_pdv.totalVenda.bind fun tv_str =>
  (parseFloat tv_str).bind fun total_venda =>
  pedido_pdv.observacoes.bind fun observacoes =>
  pedido_pdv.formaPagamento.bind fun forma_pagamento =>
  pedido_pdv.contato.bind fun contato =>
  contato.nome.bind fun cliente_nome =>
  contato.cpfCnpj.map fun cliente_cpf =>
  ⟨pedido_id, pedido_numero, pedido_dia, total_produtos, total_venda, observacoes,
    forma_pagamento, cliente_nome, cliente_cpf⟩

/-- Embeds `extract_pdv_data`: the nine extracted values on success, or the
all-`None` 9-tuple when the `try` block raises `KeyError`/`ValueError`. -/
def extract_pdv_data (pdv_data : PdvData) :
    Option String × Option String × Option String × Option ℚ × Option ℚ × Option String ×
      Option String × Option String × Option String :=
  match extract_pdv_data_core pdv_data with
  | some h => (some h.pedido_id, some h.pedido_numero, some h.pedido_dia,
      some h.total_produtos, some h.total_venda, some h.observacoes,
      some h.forma_pagamento, some h.cliente_nome, some h.cliente_cpf)
  | none => (none, none, none, none, none, none, none, none, none)

/-- The item-level warehouse record: the dict literal built in
`process_pedido_item`, with its keys as field names. -/
structure SalesItemsRow where
  uuid : String
  timestamp : ℤ
  pedido_dia : String
  pedido_id : String
  pedido_numero : String
  cliente_nome : String
  cliente_cpf : String
  vendedor_nome : String
  vendedor_id : String
  produto_idProduto : String
  produto_descricao : String
  produto_category_first : String
  produto_category_second : String
  produto_quantidade : ℚ
  produto_valor : ℚ
  produto_valor_total : ℚ
  produto_multiplier : ℚ
  fidelidade_multiplier : ℚ
  special_multiplier : ℚ
  final_multiplier : ℚ
  produto_pontos : ℚ
  project_id : String
  source_identifier : String
  version_control : String
  processed_timestamp : ℤ
deriving DecidableEq

/-- The order-level warehouse record: the dict literal built in
`prepare_sales_row`, with its keys as field names. -/
structure SalesRow where
  uuid : String
  timestamp : ℤ
  pedido_dia : String
  pedido_id : String
  pedido_numero : String
  cliente_nome : String
  cliente_cpf : String
  vendedor_nome : String
  vendedor_id : String
  pedido_valor : ℚ
  fidelidade_multiplier : ℚ
  pedido_pontos : ℚ
  project_id : String
  source_identifier : String
  version_control : String
  processed_timestamp : ℤ
deriving DecidableEq

/-- Embeds `process_pedido_item`.  The source mutates the item with
`item['pedido_id'] = pedido_pdv['id']` and `item['pedido_numero'] = ...`
before the call; those two injected values are the
`item_pedido_id`/`item_pedido_numero` arguments here.  `datetime.now(...)` is
the explicit `now` argument.  The overall result is an `Option`: when the
product metadata is found, the source reaches the `get_special_multiplier`
call, which raises `TypeError` on every call (see its docstring), so the
exception propagates out of this function (`none`); the row construction
below that call is therefore dead code in the real program, kept here for
fidelity to the source text.  When the metadata is missing the item is
dropped and `(0.0, 0.0, None)` is returned normally. -/
def process_pedido_item (cfg : Config) (item : Item)
    (item_pedido_id item_pedido_numero : String) (produto_data : ProdutoMap)
    (processing_timestamp : ℤ) (pedido_dia : String) (uuid : String)
    (nome_vendedor id_vendedor cliente_nome cliente_cpf : String) (now : ℤ) :
    Option (ℚ × ℚ × Option SalesItemsRow) :=
  match produto_data.lookup item.idProduto with
  | some produto =>
    let produto_descricao := item.descricao.getD ""
    let produto_quantidade := item.quantidade.getD 0
    let produto_valor := item.valor.getD 0
    let _produto_desconto := item.desconto.getD 0
    let _produto_preco_custo := produto.produto.preco_custo.getD 0
    let produto_obs := produto.produto.obs.getD ""
    let produto_categoria := produto.produto.categoria.getD ""
    let produto_multiplier := extract_multiplier produto_obs
    match get_special_multiplier cfg processing_timestamp with
    | none => none
    | some special_multiplier =>
    let final_multiplier := cfg.FIDELIDADE_MULTIPLIER + special_multiplier + produto_multiplier
    let produto_valor_total := produto_quantidade * produto_valor
    let produto_pontos := produto_valor_total * final_multiplier
    let categoria_split := produto_categoria.splitOn " >> "
    let produto_category_first := categoria_split.getD 0 ""
    let produto_category_second := categoria_split.getD 1 ""
    some (produto_valor_total, produto_pontos, some {
      uuid := uuid
      timestamp := convert_to_sao_paulo_time processing_timestamp
      pedido_dia := pedido_dia
      pedido_id := item_pedido_id
      pedido_numero := item_pedido_numero
      cliente_nome := cliente_nome
      cliente_cpf := cliente_cpf
      vendedor_nome := nome_vendedor
      vendedor_id := id_vendedor
      produto_idProduto := item.idProduto
      produto_descricao := produto_descricao
      produto_category_first := produto_category_first
      produto_category_second := produto_category_second
      produto_quantidade := produto_quantidade
      produto_valor := produto_valor
      produto_valor_total := produto_valor_total
      produto_multiplier := produto_multiplier
      fidelidade_multiplier := cfg.FIDELIDADE_MULTIPLIER
      special_multiplier := special_multiplier
      final_multiplier := final_multiplier
      produto_pontos := produto_pontos
      project_id := cfg.PROJECT_ID
      source_identifier := cfg.SOURCE_IDENTIFIER
      version_control := cfg.VERSION_CONTROL
      processed_timestamp := now })
  | none => some (0, 0, none)

/-- The `for item in pedido_pdv['itens']` loop of `process_pedido_items`;
each iteration reads `pedido_pdv['id']` and `pedido_pdv['numero']`, whose
absence raises `KeyError`, and then runs `process_pedido_item`, whose
`TypeError` (raised whenever the item's metadata is found) propagates here;
both exceptions are modelled as `none` and caught at the driver.  The loop
stops at the first raising item. -/
def process_items_loop (cfg : Config) (pid pnum : Option String) (produto_data : ProdutoMap)
    (processing_timestamp : ℤ) (pedido_dia : String) (uuid : String)
    (nome_vendedor id_vendedor cliente_nome cliente_cpf : String) (now : ℤ) :
    List Item → Option (List (ℚ × ℚ × Option SalesItemsRow))
  | [] => some []
  | item :: rest =>
    match pid with
    | none => none
    | some p =>
      match pnum with
      | none => none
      | some n =>
        match process_pedido_item cfg item p n produto_data processing_timestamp pedido_dia
            uuid nome_vendedor id_vendedor cliente_nome cliente_cpf now with
        | none => none
        | some r =>
          match process_items_loop cfg pid pnum produto_data processing_timestamp pedido_dia
              uuid nome_vendedor id_vendedor cliente_nome cliente_cpf now rest with
          | none => none
          | some rs => some (r :: rs)

/-- Embeds `process_pedido_items`: run the item loop, keep the truthy rows,
and derive the order-level totals as sums over the kept rows.  `none` models
an uncaught exception (a `KeyError` for missing `itens` or `id`/`numero`
with a nonempty item list, or the `TypeError` that `process_pedido_item`
raises for any metadata-matched item), which the driver catches. -/
def process_pedido_items (cfg : Config) (pedido_pdv : PdvPedido) (produto_data : ProdutoMap)
    (processing_timestamp : ℤ) (pedido_dia : String) (uuid : String)
    (nome_vendedor id_vendedor cliente_nome cliente_cpf : String) (now : ℤ) :
    Option (ℚ × ℚ × List SalesItemsRow) :=
  match pedido_pdv.itens with
  | none => none
  | some itens =>
    match process_items_loop cfg pedido_pdv.id pedido_pdv.numero produto_data
        processing_timestamp pedido_dia uuid nome_vendedor id_vendedor cliente_nome cliente_cpf
        now itens with
    | none => none
    | some results =>
      let sales_items_rows := results.filterMap (fun r => r.2.2)
      let pedido_valor := (sales_items_rows.map (fun row => row.produto_valor_total)).sum
      let pedido_pontos := (sales_items_rows.map (fun row => row.produto_pontos)).sum
      some (pedido_valor, pedido_pontos, sales_items_rows)

/-- Embeds `prepare_sales_row` (the order-level dict literal);
`pedido_pdv['id']`/`['numero']` are present whenever `process_message` reaches
this call. -/
def prepare_sales_row (cfg : Config) (uuid : String) (processing_timestamp : ℤ)
    (pedido_dia : String) (pedido_pdv : PdvPedido)
    (nome_vendedor id_vendedor cliente_nome cliente_cpf : String)
    (pedido_valor pedido_pontos : ℚ) (now : ℤ) : SalesRow :=
  { uuid := uuid
    timestamp := convert_to_sao_paulo_time processing_timestamp
    pedido_dia := pedido_dia
    pedido_id := pedido_pdv.id.getD ""
    pedido_numero := pedido_pdv.numero.getD ""
    cliente_nome := cliente_nome
    cliente_cpf := cliente_cpf
    vendedor_nome := nome_vendedor
    vendedor_id := id_vendedor
    pedido_valor := pedido_valor
    fidelidade_multiplier := cfg.FIDELIDADE_MULTIPLIER
    pedido_pontos := pedido_pontos
    project_id := cfg.PROJECT_ID
    source_identifier := cfg.SOURCE_IDENTIFIER
    version_control := cfg.VERSION_CONTROL
    processed_timestamp := now }

/-- Row contents of the two destination tables. -/
structure BqState where
  sales : List SalesRow
  sales_items : List SalesItemsRow
deriving DecidableEq

/-- Embeds the row-visible effect of `load_data_to_bigquery`:
`insert_rows_json` is a streaming append of the given rows to each table; the
dataset/table provisioning and the schema/primary-key update calls never
read, filter or delete rows, and no existence check precedes the inserts. -/
def load_data_to_bigquery (st : BqState) (sales_row : SalesRow)
    (sales_items_rows : List SalesItemsRow) : BqState :=
  { sales := st.sales ++ [sales_row]
    sales_items := st.sales_items ++ sales_items_rows }

/-- Python truthiness of the `Optional[str]` values tested on line
`if nome_vendedor and id_vendedor and pedido_id and pedido_numero and
pedido_dia:` — `None` and the empty string are falsy. -/
def truthy : Option String → Bool
  | none => false
  | some s => !s.isEmpty

/-- Outcome of one `process_message` call: the row batch handed to
`load_data_to_bigquery` (if any) and how many times `message.ack()` ran. -/
structure Outcome where
  persisted : Option (SalesRow × List SalesItemsRow)
  acks : ℕ
deriving DecidableEq

/-- The correlated download result `(pesquisa_data, pdv_data, produto_data,
processing_timestamp)` returned by `download_json_files`. -/
abbrev DownloadResult :=
  Option PesquisaData × Option PdvData × ProdutoMap × Option ℤ

/-- The `try` block of `process_message` (everything before the final
`message.ack()`): the rows passed to the warehouse write, or `none` when
processing stops (missing data, incomplete data, or a caught exception).
The download step with its possible exceptions is supplied as an `Except`
argument. -/
def process_message_body (cfg : Config) (download : Except String DownloadResult)
    (now : ℤ) (uuid : String) : Option (SalesRow × List SalesItemsRow) :=
  match download with
  | .error _ => none
  | .ok dl =>
    match dl.1 with
    | none => none
    | some pesquisa_data =>
      match dl.2.1 with
      | none => none
      | some pdv_data =>
        match dl.2.2.2 with
        | none => none
        | some processing_timestamp =>
          let produto_data := dl.2.2.1
          let nv := extract_pesquisa_data pesquisa_data
          let hd := extract_pdv_data pdv_data
          if truthy nv.1 && truthy nv.2 && truthy hd.1 && truthy hd.2.1 && truthy hd.2.2.1 then
            match pdv_data.retorno with
            | none => none
            | some retorno =>
              match retorno.pedido with
              | none => none
              | some pedido_pdv =>
                match process_pedido_items cfg pedido_pdv produto_data processing_timestamp
                    (hd.2.2.1.getD "") uuid (nv.1.getD "") (nv.2.getD "")
                    (hd.2.2.2.2.2.2.2.1.getD "") (hd.2.2.2.2.2.2.2.2.getD "") now with
                | none => none
                | some vpr =>
                  some (prepare_sales_row cfg uuid processing_timestamp (hd.2.2.1.getD "")
                    pedido_pdv (nv.1.getD "") (nv.2.getD "")
                    (hd.2.2.2.2.2.2.2.1.getD "") (hd.2.2.2.2.2.2.2.2.getD "")
                    vpr.1 vpr.2.1 now, vpr.2.2)
          else none

/-- Embeds `process_message`: run the `try` block; `message.ack()` then runs
exactly once, after the `try/except`, on every path. -/
def process_message (cfg : Config) (download : Except String DownloadResult)
    (now : ℤ) (uuid : String) : Outcome :=
  { persisted := process_message_body cfg download now uuid
    acks := 1 }

/-- Embeds `pubsub_callback`: a missing `Processing-Timestamp` attribute means
warn and ack; otherwise the inner `process_message` call runs (its outcome is
the `Except.ok` case; an exception escaping the call is the `Except.error`
case, caught by the callback's own `except`, which acks).  Returns the total
number of acknowledgements for the delivery. -/
def pubsub_callback (timestamp_attr : Option ℤ) (call : Except String Outcome) : ℕ :=
  match timestamp_attr with
  | none => 1
  | some _ =>
    match call with
    | .error _ => 1
    | .ok outcome => outcome.acks

theorem process_pedido_item_lookup_none (cfg : Config) (item : Item) (p n : String)
    (pd : ProdutoMap) (ts : ℤ) (dia uuid nv iv cn cc : String) (now : ℤ)
    (h : pd.lookup item.idProduto = none) :
    process_pedido_item cfg item p n pd ts dia uuid nv iv cn cc now = some (0, 0, none) := by
  rw [process_pedido_item, h]

theorem process_pedido_item_matched_none (cfg : Config) (item : Item) (p n : String)
    (pd : ProdutoMap) (ts : ℤ) (dia uuid nv iv cn cc : String) (now : ℤ)
    (produto : ProdutoDoc) (h : pd.lookup item.idProduto = some produto) :
    process_pedido_item cfg item p n pd ts dia uuid nv iv cn cc now = none := by
  simp only [process_pedido_item, h, get_special_multiplier]

theorem process_pedido_item_some (cfg : Config) (item : Item) (p n : String)
    (pd : ProdutoMap) (ts : ℤ) (dia uuid nv iv cn cc : String) (now : ℤ)
    (r : ℚ × ℚ × Option SalesItemsRow)
    (h : process_pedido_item cfg item p n pd ts dia uuid nv iv cn cc now = some r) :
    r = (0, 0, none) := by
  rw [process_pedido_item] at h
  split at h
  · exact absurd h (by simp [get_special_multiplier])
  · rw [Option.some.injEq] at h
    exact h.symm

theorem process_items_loop_all_unmatched (cfg : Config) (p n : String) (pd : ProdutoMap)
    (ts : ℤ) (dia uuid nv iv cn cc : String) (now : ℤ) (l : List Item)
    (h : ∀ it ∈ l, pd.lookup it.idProduto = none) :
    process_items_loop cfg (some p) (some n) pd ts dia uuid nv iv cn cc now l =
      some (l.map fun _ => ((0 : ℚ), (0 : ℚ), (none : Option SalesItemsRow))) := by
  induction l with
  | nil => rfl
  | cons a rest ih =>
    have hppi := process_pedido_item_lookup_none cfg a p n pd ts dia uuid nv iv cn cc now
      (h a (by simp))
    simp only [process_items_loop, hppi, ih fun it hit => h it (by simp [hit]),
      List.map_cons]

theorem process_items_loop_skip_bad (cfg : Config) (p n : String) (pd : ProdutoMap) (ts : ℤ)
    (dia uuid nv iv cn cc : String) (now : ℤ) (bad : Item)
    (hbad : pd.lookup bad.idProduto = none) (l1 l2 : List Item) :
    (process_items_loop cfg (some p) (some n) pd ts dia uuid nv iv cn cc now
        (l1 ++ bad :: l2)).map (fun rs => rs.filterMap fun r => r.2.2) =
      (process_items_loop cfg (some p) (some n) pd ts dia uuid nv iv cn cc now
        (l1 ++ l2)).map (fun rs => rs.filterMap fun r => r.2.2) := by
  induction l1 with
  | nil =>
    have hppi := process_pedido_item_lookup_none cfg bad p n pd ts dia uuid nv iv cn cc now
      hbad
    simp only [List.nil_append, process_items_loop, hppi]
    cases hl2 : process_items_loop cfg (some p) (some n) pd ts dia uuid nv iv cn cc now l2
    · rfl
    · rfl
  | cons a l1 ih =>
    simp only [List.cons_append, process_items_loop]
    cases hpa : process_pedido_item cfg a p n pd ts dia uuid nv iv cn cc now with
    | none => rfl
    | some r =>
      cases hA : process_items_loop cfg (some p) (some n) pd ts dia uuid nv iv cn cc now
          (l1 ++ bad :: l2) with
      | none =>
        cases hB : process_items_loop cfg (some p) (some n) pd ts dia uuid nv iv cn cc now
            (l1 ++ l2) with
        | none => rfl
        | some rs2 => rw [hA, hB] at ih; exact absurd ih (by simp)
      | some rs1 =>
        cases hB : process_items_loop cfg (some p) (some n) pd ts dia uuid nv iv cn cc now
            (l1 ++ l2) with
        | none => rw [hA, hB] at ih; exact absurd ih (by simp)
        | some rs2 =>
          rw [hA, hB] at ih
          simp only [Option.map_some', Option.some.injEq] at ih
          simp only [Option.map_some', Option.some.injEq, List.filterMap_cons, ih]

theorem process_pedido_items_as_map (cfg : Config) (ped : PdvPedido) (pd : ProdutoMap)
    (ts : ℤ) (dia uuid nv iv cn cc : String) (now : ℤ) (p n : String) (l : List Item)
    (hid : ped.id = some p) (hnum : ped.numero = some n) (hit : ped.itens = some l) :
    process_pedido_items cfg ped pd ts dia uuid nv iv cn cc now =
      (process_items_loop cfg (some p) (some n) pd ts dia uuid nv iv cn cc now l).map
        fun results =>
          ((((results.filterMap fun r => r.2.2).map fun row => row.produto_valor_total).sum,
           ((results.filterMap fun r => r.2.2).map fun row => row.produto_pontos).sum,
           results.filterMap fun r => r.2.2)) := by
  rw [process_pedido_items, hit, hid, hnum]
  cases hX : process_items_loop cfg (some p) (some n) pd ts dia uuid nv iv cn cc now l <;>
    simp [hX]

theorem process_pedido_items_skip_bad (cfg : Config) (ped1 ped2 : PdvPedido)
    (p n : String) (pd : ProdutoMap) (ts : ℤ) (dia uuid nv iv cn cc : String) (now : ℤ)
    (bad : Item) (l1 l2 : List Item)
    (h1id : ped1.id = some p) (h1num : ped1.numero = some n)
    (h1it : ped1.itens = some (l1 ++ bad :: l2))
    (h2id : ped2.id = some p) (h2num : ped2.numero = some n)
    (h2it : ped2.itens = some (l1 ++ l2))
    (hbad : pd.lookup bad.idProduto = none) :
    process_pedido_items cfg ped1 pd ts dia uuid nv iv cn cc now =
      process_pedido_items cfg ped2 pd ts dia uuid nv iv cn cc now := by
  rw [process_pedido_items_as_map cfg ped1 pd ts dia uuid nv iv cn cc now p n _ h1id h1num
      h1it,
    process_pedido_items_as_map cfg ped2 pd ts dia uuid nv iv cn cc now p n _ h2id h2num
      h2it]
  have hskip := process_items_loop_skip_bad cfg p n pd ts dia uuid nv iv cn cc now bad hbad
    l1 l2
  cases hA : process_items_loop cfg (some p) (some n) pd ts dia uuid nv iv cn cc now
      (l1 ++ bad :: l2) with
  | none =>
    cases hB : process_items_loop cfg (some p) (some n) pd ts dia uuid nv iv cn cc now
        (l1 ++ l2) with
    | none => rfl
    | some rs2 => rw [hA, hB] at hskip; exact absurd hskip (by simp)
  | some rs1 =>
    cases hB : process_items_loop cfg (some p) (some n) pd ts dia uuid nv iv cn cc now
        (l1 ++ l2) with
    | none => rw [hA, hB] at hskip; exact absurd hskip (by simp)
    | some rs2 =>
      rw [hA, hB] at hskip
      simp only [Option.map_some', Option.some.injEq] at hskip
      simp only [Option.map_some', Option.some.injEq, hskip]

/-- C7: every message that enters processing is acknowledged exactly once by
the driver, whatever the outcome: `process_message` acks once on success,
missing data, incomplete data and caught exceptions alike, and
`pubsub_callback` acks exactly once both when it delegates to
`process_message` and when the inner call raises. -/
theorem C7_ack_exactly_once (cfg : Config) (download : Except String DownloadResult)
    (now : ℤ) (uuid : String) (e : String) (tsAttr : Option ℤ) :
    (process_message cfg download now uuid).acks = 1 ∧
    pubsub_callback tsAttr (.ok (process_message cfg download now uuid)) = 1 ∧
    pubsub_callback tsAttr (.error e) = 1 := by
  refine ⟨rfl, ?_, ?_⟩ <;> cases tsAttr <;> rfl

/-- C9: the persistence path is a pure append with no pre-insert existence
check and no write-time deduplication: running it twice with the same rows,
from any prior sink state, appends a second order row and a second set of
item rows, so the count of order rows carrying the same `(uuid, pedido_id)`
key grows by exactly two. -/
theorem C9_duplicate_rows (st : BqState) (row : SalesRow) (items : List SalesItemsRow) :
    load_data_to_bigquery (load_data_to_bigquery st row items) row items =
      ⟨st.sales ++ [row, row], st.sales_items ++ items ++ items⟩ ∧
    ((load_data_to_bigquery (load_data_to_bigquery st row items) row items).sales.filter
        fun r => r.uuid == row.uuid && r.pedido_id == row.pedido_id).length =
      (st.sales.filter fun r => r.uuid == row.uuid && r.pedido_id == row.pedido_id).length + 2 := by
  constructor
  · simp [load_data_to_bigquery]
  · simp [load_data_to_bigquery, List.filter_append]

/-- Configuration used to exhibit the C3 counterexample: morning rate 0.03,
happy-hour rate 0.05. -/
def cfg3 : Config := ⟨"", "", "", 0, 3/100, 1/20⟩

/-- C1: whenever `process_pedido_items` completes, the order-level value and
points it returns are exactly the sums of `produto_valor_total` and
`produto_pontos` over the retained item rows (in particular both are 0 when
no rows are retained), and `prepare_sales_row` copies those two aggregates
unchanged into the emitted order row — the order document's own totals are
never consulted. -/
theorem C1_order_totals_are_item_sums (cfg : Config) (ped : PdvPedido) (pd : ProdutoMap)
    (ts : ℤ) (dia uuid nv iv cn cc : String) (now : ℤ) (v p : ℚ) (rows : List SalesItemsRow)
    (h : process_pedido_items cfg ped pd ts dia uuid nv iv cn cc now = some (v, p, rows)) :
    v = (rows.map fun r => r.produto_valor_total).sum ∧
    p = (rows.map fun r => r.produto_pontos).sum ∧
    (rows = [] → v = 0 ∧ p = 0) ∧
    (prepare_sales_row cfg uuid ts dia ped nv iv cn cc v p now).pedido_valor = v ∧
    (prepare_sales_row cfg uuid ts dia ped nv iv cn cc v p now).pedido_pontos = p := by
  rw [process_pedido_items] at h
  split at h
  · exact absurd h (by simp)
  · split at h
    · exact absurd h (by simp)
    · simp only [Option.some.injEq, Prod.mk.injEq] at h
      obtain ⟨hv, hrest⟩ := h
      obtain ⟨hp, hr⟩ := hrest
      subst hv hp
      subst hr
      refine ⟨rfl, rfl, fun hnil => ?_, rfl, rfl⟩
      rw [hnil]
      simp

/-- C1 witness: an order with an empty item list yields value 0 and points 0,
copied into the order row. -/
theorem C1_witness :
    ((0 : ℚ) = (([] : List SalesItemsRow).map fun r => r.produto_valor_total).sum ∧
      (0 : ℚ) = (([] : List SalesItemsRow).map fun r => r.produto_pontos).sum) ∧
    ((0 : ℚ) = 0 ∧ (0 : ℚ) = 0) ∧
    (prepare_sales_row cfg3 "u" 0 "d"
        { id := some "PED1", numero := some "100", data := none, totalProdutos := none,
          totalVenda := none, observacoes := none, formaPagamento := none, contato := none,
          itens := some [] } "n" "i" "c" "p" 0 0 0).pedido_valor = 0 ∧
    (prepare_sales_row cfg3 "u" 0 "d"
        { id := some "PED1", numero := some "100", data := none, totalProdutos := none,
          totalVenda := none, observacoes := none, formaPagamento := none, contato := none,
          itens := some [] } "n" "i" "c" "p" 0 0 0).pedido_pontos = 0 := by
  have h := C1_order_totals_are_item_sums cfg3
    { id := some "PED1", numero := some "100", data := none, totalProdutos := none,
      totalVenda := none, observacoes := none, formaPagamento := none, contato := none,
      itens := some [] } [] 0 "d" "u" "n" "i" "c" "p" 0 0 0 [] rfl
  exact ⟨⟨h.1, h.2.1⟩, h.2.2.1 rfl, h.2.2.2.1, h.2.2.2.2⟩

/-- C2: the product-embedded rate is the minimum of the decimal marker values
when any `{{d.d}}` marker is present (characterised as a member of the marker
list that is a lower bound of it) and 0.0 when none is present; on the spec's
example string the result is 0.05. -/
theorem C2_marker_minimum :
    (∀ obs : String,
      (findMarkers obs.toList = [] → extract_multiplier obs = 0) ∧
      (findMarkers obs.toList ≠ [] →
        extract_multiplier obs ∈ findMarkers obs.toList ∧
        ∀ x ∈ findMarkers obs.toList, extract_multiplier obs ≤ x)) ∧
    extract_multiplier "desc \x7b\x7b0.10\x7d\x7d extra \x7b\x7b0.05\x7d\x7d" = 1/20 := by
  constructor
  · intro obs
    constructor
    · intro h
      simp only [extract_multiplier]
      rw [h]
    · intro h
      cases hm : findMarkers obs.toList with
      | nil => exact absurd hm h
      | cons m ms =>
        simp only [extract_multiplier, hm]
        exact ⟨foldl_min_mem m ms, foldl_min_le m ms⟩
  · simp +decide [extract_multiplier, findMarkers, findMarkersAux, tryMatch, takeDigits,
      digitsToNat, decimalValue, String.toList]
    norm_num [min_def]

/-- C2 witness: on the example string the extracted rate is a member of the
marker list and is bounded by the first marker (0.10). -/
theorem C2_witness :
    extract_multiplier "desc \x7b\x7b0.10\x7d\x7d extra \x7b\x7b0.05\x7d\x7d" ∈
      findMarkers "desc \x7b\x7b0.10\x7d\x7d extra \x7b\x7b0.05\x7d\x7d".toList ∧
    extract_multiplier "desc \x7b\x7b0.10\x7d\x7d extra \x7b\x7b0.05\x7d\x7d" ≤ decimalValue ['0'] ['1', '0'] := by
  have hne : findMarkers "desc \x7b\x7b0.10\x7d\x7d extra \x7b\x7b0.05\x7d\x7d".toList ≠ [] := by
    simp +decide [findMarkers, findMarkersAux, tryMatch, takeDigits, String.toList]
  have h := (C2_marker_minimum.1 "desc \x7b\x7b0.10\x7d\x7d extra \x7b\x7b0.05\x7d\x7d").2 hne
  refine ⟨h.1, h.2 _ ?_⟩
  have : findMarkers "desc \x7b\x7b0.10\x7d\x7d extra \x7b\x7b0.05\x7d\x7d".toList =
      [decimalValue ['0'] ['1', '0'], decimalValue ['0'] ['0', '5']] := rfl
  rw [this]
  simp

/-- All-zero configuration used for counterexamples. -/
def cfg0 : Config := ⟨"", "", "", 0, 0, 0⟩

/-- A PDV `retorno.pedido` with a fixed valid header carrying the given item
list. -/
def mkPedido (itens : List Item) : PdvPedido :=
  { id := some "PED1", numero := some "100", data := some "01/03/2024",
    totalProdutos := some "999", totalVenda := some "999", observacoes := some "",
    formaPagamento := some "card", contato := some ⟨some "Cli", some "123"⟩,
    itens := some itens }

/-- A PDV order document with the fixed valid header and the given items. -/
def mkPdv (itens : List Item) : PdvData := ⟨some ⟨some (mkPedido itens)⟩⟩

/-- A pesquisa document naming seller "Ana" with id "V1". -/
def samplePesquisa : PesquisaData := ⟨some ⟨some [⟨some ⟨some "Ana", some "V1"⟩⟩]⟩⟩

/-- A product document with the given notes text and no category. -/
def mkProduto (obs : String) : ProdutoDoc := ⟨⟨none, some obs, none⟩⟩

/-- C3 counterexample: 6300 minutes past the Monday-00:00-UTC epoch is
Friday 06:00 São Paulo local time, yet `get_special_multiplier` raises
(`none`) instead of returning any rate: under `from datetime import
datetime`, the expression `datetime.time(5, 0, 0)` applies the unbound
`time` instance method to an `int` and raises `TypeError` on every call, so
no sum of window rates — in particular not morning + happy-hour — is ever
returned at that instant. -/
theorem C3_counterexample :
    weekday (convert_to_sao_paulo_time 6300) = 4 ∧
    timeOfDay (convert_to_sao_paulo_time 6300) = 360 ∧
    get_special_multiplier cfg3 6300 = none ∧
    get_special_multiplier cfg3 6300 ≠
      some (cfg3.MORNING_MULTIPLIER + cfg3.HAPPYHOUR_MULTIPLIER) := by
  refine ⟨by decide, by decide, rfl, by simp [get_special_multiplier]⟩

/-- C3 (amended): `get_special_multiplier` never returns a situational rate:
at every timestamp its first window comparison raises `TypeError` (the
`datetime.time` descriptor misuse), modelled as `none`; consequently any
line item whose product id is matched in the metadata map aborts item
processing (`process_pedido_item` yields `none`), since the multiplier
lookup is reached exactly on the matched path. -/
theorem C3_amended_always_raises :
    (∀ (cfg : Config) (ts : ℤ), get_special_multiplier cfg ts = none) ∧
    (∀ (cfg : Config) (item : Item) (p n : String) (pd : ProdutoMap) (ts : ℤ)
        (dia uuid nv iv cn cc : String) (now : ℤ) (produto : ProdutoDoc),
      pd.lookup item.idProduto = some produto →
      process_pedido_item cfg item p n pd ts dia uuid nv iv cn cc now = none) :=
  ⟨fun _ _ => rfl, fun cfg item p n pd ts dia uuid nv iv cn cc now produto h =>
    process_pedido_item_matched_none cfg item p n pd ts dia uuid nv iv cn cc now produto h⟩

/-- C3 witness: the amended theorem applied at the Friday-06:00 instant and
at a concrete matched item (product "P1" present in the metadata map). -/
theorem C3_witness :
    get_special_multiplier cfg3 6300 = none ∧
    process_pedido_item cfg0 ⟨"P1", none, some 1, some 10, none⟩ "PED1" "100"
      [("P1", mkProduto "")] 0 "d" "u" "n" "i" "c" "p" 0 = none :=
  ⟨C3_amended_always_raises.1 cfg3 6300,
   C3_amended_always_raises.2 cfg0 ⟨"P1", none, some 1, some 10, none⟩ "PED1" "100"
     [("P1", mkProduto "")] 0 "d" "u" "n" "i" "c" "p" 0 (mkProduto "")
     (by simp [List.lookup])⟩

theorem process_items_loop_mem (cfg : Config) (pid pnum : Option String) (pd : ProdutoMap)
    (ts : ℤ) (dia uuid nv iv cn cc : String) (now : ℤ) (l : List Item)
    (results : List (ℚ × ℚ × Option SalesItemsRow))
    (h : process_items_loop cfg pid pnum pd ts dia uuid nv iv cn cc now l = some results) :
    ∀ r ∈ results, ∃ item ∈ l, ∃ a b,
      process_pedido_item cfg item a b pd ts dia uuid nv iv cn cc now = some r := by
  induction l generalizing results with
  | nil =>
    simp only [process_items_loop, Option.some.injEq] at h
    subst h
    simp
  | cons item rest ih =>
    cases pid with
    | none =>
      simp only [process_items_loop] at h
      exact absurd h (by simp)
    | some p =>
      cases pnum with
      | none =>
        simp only [process_items_loop] at h
        exact absurd h (by simp)
      | some n =>
        simp only [process_items_loop] at h
        split at h
        · exact absurd h (by simp)
        · rename_i r0 hr0
          split at h
          · exact absurd h (by simp)
          · rename_i rs hrs
            rw [Option.some.injEq] at h
            subst h
            intro r hr
            rcases List.mem_cons.mp hr with h1 | h1
            · subst h1
              exact ⟨item, by simp, p, n, hr0⟩
            · obtain ⟨it, hit, a2, b2, hab⟩ := ih rs hrs r h1
              exact ⟨it, by simp [hit], a2, b2, hab⟩

theorem process_pedido_items_rows_empty (cfg : Config) (ped : PdvPedido) (pd : ProdutoMap)
    (ts : ℤ) (dia uuid nv iv cn cc : String) (now : ℤ) (vpr : ℚ × ℚ × List SalesItemsRow)
    (h : process_pedido_items cfg ped pd ts dia uuid nv iv cn cc now = some vpr) :
    vpr.2.2 = [] ∧ vpr.1 = 0 ∧ vpr.2.1 = 0 := by
  rw [process_pedido_items] at h
  split at h
  · exact absurd h (by simp)
  · rename_i itens hitens
    split at h
    · exact absurd h (by simp)
    · rename_i results hloop
      rw [Option.some.injEq] at h
      have hrows : results.filterMap (fun r => r.2.2) = [] := by
        rw [List.filterMap_eq_nil_iff]
        intro t htmem
        obtain ⟨item, hitem, a2, b2, hab⟩ := process_items_loop_mem cfg ped.id ped.numero
          pd ts dia uuid nv iv cn cc now itens results hloop t htmem
        rw [process_pedido_item_some cfg item a2 b2 pd ts dia uuid nv iv cn cc now t hab]
      subst h
      refine ⟨hrows, ?_, ?_⟩
      · show ((results.filterMap fun r => r.2.2).map fun row => row.produto_valor_total).sum
          = 0
        rw [hrows]
        rfl
      · show ((results.filterMap fun r => r.2.2).map fun row => row.produto_pontos).sum = 0
        rw [hrows]
        rfl

/-- C8: every batch `process_message` ever hands to the warehouse write has
nonnegative totals: the order row carries `pedido_valor ≥ 0` and
`pedido_pontos ≥ 0`, and every item row in the batch has nonnegative value
and points.  In fact the item-row list of every persisted batch is empty and
the order totals are 0: any metadata-matched item reaches the broken
`get_special_multiplier` and aborts the whole message, so only batches in
which every item was dropped survive to the write. -/
theorem C8_persisted_rows_nonneg (cfg : Config) (download : Except String DownloadResult)
    (now : ℤ) (uuid : String) (salesRow : SalesRow) (itemRows : List SalesItemsRow)
    (h : (process_message cfg download now uuid).persisted = some (salesRow, itemRows)) :
    0 ≤ salesRow.pedido_valor ∧ 0 ≤ salesRow.pedido_pontos ∧ itemRows = [] ∧
    ∀ r ∈ itemRows, 0 ≤ r.produto_valor_total ∧ 0 ≤ r.produto_pontos := by
  have hbody : process_message_body cfg download now uuid = some (salesRow, itemRows) := h
  rcases download with e | ⟨pes, pdv, pd, ts⟩
  · rw [show process_message_body cfg (.error e) now uuid = none from rfl] at hbody
    exact absurd hbody (by simp)
  rcases pes with _ | pes
  · rw [show process_message_body cfg (.ok (none, pdv, pd, ts)) now uuid = none from rfl]
      at hbody
    exact absurd hbody (by simp)
  rcases pdv with _ | pdv
  · rw [show process_message_body cfg (.ok (some pes, none, pd, ts)) now uuid = none
        from rfl] at hbody
    exact absurd hbody (by simp)
  rcases ts with _ | ts
  · rw [show process_message_body cfg (.ok (some pes, some pdv, pd, none)) now uuid = none
        from rfl] at hbody
    exact absurd hbody (by simp)
  obtain ⟨ret⟩ := pdv
  rcases ret with _ | ⟨pedo⟩
  · rw [show process_message_body cfg (.ok (some pes, some ⟨none⟩, pd, some ts)) now uuid =
        (if truthy (extract_pesquisa_data pes).1 && truthy (extract_pesquisa_data pes).2 &&
            truthy (extract_pdv_data ⟨none⟩).1 && truthy (extract_pdv_data ⟨none⟩).2.1 &&
            truthy (extract_pdv_data ⟨none⟩).2.2.1 then none else none)
      from rfl] at hbody
    exact absurd hbody (by simp)
  rcases pedo with _ | pedo
  · rw [show process_message_body cfg (.ok (some pes, some ⟨some ⟨none⟩⟩, pd, some ts)) now
        uuid =
        (if truthy (extract_pesquisa_data pes).1 && truthy (extract_pesquisa_data pes).2 &&
            truthy (extract_pdv_data ⟨some ⟨none⟩⟩).1 &&
            truthy (extract_pdv_data ⟨some ⟨none⟩⟩).2.1 &&
            truthy (extract_pdv_data ⟨some ⟨none⟩⟩).2.2.1 then none else none)
      from rfl] at hbody
    exact absurd hbody (by simp)
  rw [show process_message_body cfg (.ok (some pes, some ⟨some ⟨some pedo⟩⟩, pd, some ts))
      now uuid =
    (if truthy (extract_pesquisa_data pes).1 && truthy (extract_pesquisa_data pes).2 &&
        truthy (extract_pdv_data ⟨some ⟨some pedo⟩⟩).1 &&
        truthy (extract_pdv_data ⟨some ⟨some pedo⟩⟩).2.1 &&
        truthy (extract_pdv_data ⟨some ⟨some pedo⟩⟩).2.2.1 then
      match process_pedido_items cfg pedo pd ts
          ((extract_pdv_data ⟨some ⟨some pedo⟩⟩).2.2.1.getD "") uuid
          ((extract_pesquisa_data pes).1.getD "") ((extract_pesquisa_data pes).2.getD "")
          ((extract_pdv_data ⟨some ⟨some pedo⟩⟩).2.2.2.2.2.2.2.1.getD "")
          ((extract_pdv_data ⟨some ⟨some pedo⟩⟩).2.2.2.2.2.2.2.2.getD "") now with
      | none => none
      | some vpr =>
        some (prepare_sales_row cfg uuid ts
          ((extract_pdv_data ⟨some ⟨some pedo⟩⟩).2.2.1.getD "") pedo
          ((extract_pesquisa_data pes).1.getD "") ((extract_pesquisa_data pes).2.getD "")
          ((extract_pdv_data ⟨some ⟨some pedo⟩⟩).2.2.2.2.2.2.2.1.getD "")
          ((extract_pdv_data ⟨some ⟨some pedo⟩⟩).2.2.2.2.2.2.2.2.getD "") vpr.1 vpr.2.1
          now, vpr.2.2)
    else none) from rfl] at hbody
  split at hbody
  · split at hbody
    · exact absurd hbody (by simp)
    · rename_i vpr hvpr
      rw [Option.some.injEq, Prod.mk.injEq] at hbody
      obtain ⟨hrow, hitems⟩ := hbody
      obtain ⟨hrows0, hv0, hp0⟩ :=
        process_pedido_items_rows_empty _ _ _ _ _ _ _ _ _ _ _ _ hvpr
      rw [hv0, hp0] at hrow
      refine ⟨?_, ?_, ?_, ?_⟩
      · rw [← hrow]
        exact le_refl 0
      · rw [← hrow]
        exact le_refl 0
      · rw [← hitems]
        exact hrows0
      · rw [← hitems, hrows0]
        simp
  · exact absurd hbody (by simp)

/-- C8 witness: a concrete message whose lone item lacks metadata persists a
batch consisting of an order row with value 0 and points 0 and an empty
item-row list, and the theorem applied to it yields the nonnegativity
facts. -/
theorem C8_witness :
    0 ≤ (prepare_sales_row cfg0 "u" 0 "2024-03-01"
        (mkPedido [⟨"P2", none, none, none, none⟩]) "Ana" "V1" "Cli" "123" 0 0
        0).pedido_valor ∧
    0 ≤ (prepare_sales_row cfg0 "u" 0 "2024-03-01"
        (mkPedido [⟨"P2", none, none, none, none⟩]) "Ana" "V1" "Cli" "123" 0 0
        0).pedido_pontos ∧
    ([] : List SalesItemsRow) = [] := by
  have h := C8_persisted_rows_nonneg cfg0 (.ok (some samplePesquisa,
      some (mkPdv [⟨"P2", none, none, none, none⟩]), [], some 0)) 0 "u"
    (prepare_sales_row cfg0 "u" 0 "2024-03-01"
      (mkPedido [⟨"P2", none, none, none, none⟩]) "Ana" "V1" "Cli" "123" 0 0 0) [] rfl
  exact ⟨h.1, h.2.1, h.2.2.1⟩

/-- Evaluation of the driver body on the sample survey document and an order
document with the fixed valid header: the gate checks pass and processing
reaches the item stage with the extracted header values. -/
theorem process_message_body_mkPdv (cfg : Config) (pd : ProdutoMap) (ts now : ℤ)
    (uuid : String) (l : List Item) :
    process_message_body cfg (.ok (some samplePesquisa, some (mkPdv l), pd, some ts))
        now uuid =
      match process_pedido_items cfg (mkPedido l) pd ts "2024-03-01" uuid "Ana" "V1" "Cli"
          "123" now with
      | none => none
      | some vpr =>
        some (prepare_sales_row cfg uuid ts "2024-03-01" (mkPedido l) "Ana" "V1" "Cli" "123"
          vpr.1 vpr.2.1 now, vpr.2.2) := rfl

/-- C6 (amended): when the survey document, the order document or the
processing timestamp is missing after correlation, no row batch is produced
and the message is acknowledged once.  (The product role is not part of the
gate check — see the counterexample.) -/
theorem C6_amended_missing_inputs (cfg : Config) (pes : Option PesquisaData)
    (pdv : Option PdvData) (pd : ProdutoMap) (ts : Option ℤ) (now : ℤ) (uuid : String)
    (h : pes = none ∨ pdv = none ∨ ts = none) :
    process_message cfg (.ok (pes, pdv, pd, ts)) now uuid = ⟨none, 1⟩ := by
  have hbody : process_message_body cfg (.ok (pes, pdv, pd, ts)) now uuid = none := by
    rcases h with h | h | h
    · subst h; rfl
    · subst h; cases pes <;> rfl
    · subst h; cases pes <;> cases pdv <;> rfl
  rw [process_message, hbody]

/-- C6 witness: the amended theorem applied with the survey document
missing. -/
theorem C6_witness :
    process_message cfg0 (.ok (none, some (mkPdv []), [], some 0)) 0 "u" = ⟨none, 1⟩ :=
  C6_amended_missing_inputs cfg0 none (some (mkPdv [])) [] (some 0) 0 "u" (Or.inl rfl)

/-- C6 counterexample: with the product role missing after correlation (an
empty product map) but survey, order and timestamp present, the pipeline
still persists a row batch (the order row, with the lone item dropped), so
the claim that a missing product role suppresses all writes is false. -/
theorem C6_counterexample :
    (process_message cfg0 (.ok (some samplePesquisa,
        some (mkPdv [⟨"P1", none, some 1, some 10, none⟩]), [], some 0)) 0 "u").persisted =
      some (prepare_sales_row cfg0 "u" 0 "2024-03-01"
        (mkPedido [⟨"P1", none, some 1, some 10, none⟩]) "Ana" "V1" "Cli" "123" 0 0 0, []) ∧
    (process_message cfg0 (.ok (some samplePesquisa,
        some (mkPdv [⟨"P1", none, some 1, some 10, none⟩]), [], some 0)) 0 "u").acks = 1 :=
  ⟨rfl, rfl⟩

theorem extract_pdv_core_none_of_no_formaPagamento (pdv : PdvData) (r : PdvRetorno)
    (ped : PdvPedido) (hr : pdv.retorno = some r) (hp : r.pedido = some ped)
    (hf : ped.formaPagamento = none) : extract_pdv_data_core pdv = none := by
  cases hcore : extract_pdv_data_core pdv with
  | none => rfl
  | some h =>
    exfalso
    rw [extract_pdv_data_core, hr] at hcore
    simp only [Option.some_bind] at hcore
    rw [hp] at hcore
    simp only [Option.some_bind, Option.bind_eq_some, Option.map_eq_some'] at hcore
    obtain ⟨a1, h1, a2, h2, a3, h3, a4, h4, a5, h5, a6, h6, a7, h7, a8, h8, a9, h9,
      a10, h10, hrest⟩ := hcore
    rw [hf] at h10
    exact Option.noConfusion h10

/-- C10: header extraction is all-or-nothing (either all nine values are
present or all nine are `None`; a total function, never an exception), and a
defect in any single header field — here the downstream-unused payment
method — suppresses processing of the whole message: nothing is persisted. -/
theorem C10_header_all_or_nothing :
    (∀ pdv : PdvData,
      extract_pdv_data pdv = (none, none, none, none, none, none, none, none, none) ∨
      ∃ h : PdvHeader, extract_pdv_data pdv = (some h.pedido_id, some h.pedido_numero,
        some h.pedido_dia, some h.total_produtos, some h.total_venda, some h.observacoes,
        some h.forma_pagamento, some h.cliente_nome, some h.cliente_cpf)) ∧
    (∀ (cfg : Config) (pdv : PdvData) (r : PdvRetorno) (ped : PdvPedido)
      (pes : Option PesquisaData) (pd : ProdutoMap) (ts : Option ℤ) (now : ℤ) (uuid : String),
      pdv.retorno = some r → r.pedido = some ped → ped.formaPagamento = none →
      (process_message cfg (.ok (pes, some pdv, pd, ts)) now uuid).persisted = none) := by
  constructor
  · intro pdv
    cases hcore : extract_pdv_data_core pdv with
    | none =>
      left
      rw [extract_pdv_data, hcore]
    | some h =>
      right
      exact ⟨h, by rw [extract_pdv_data, hcore]⟩
  · intro cfg pdv r ped pes pd ts now uuid hr hp hf
    have hcore := extract_pdv_core_none_of_no_formaPagamento pdv r ped hr hp hf
    show process_message_body cfg (.ok (pes, some pdv, pd, ts)) now uuid = none
    cases pes with
    | none => rfl
    | some pes' =>
      cases ts with
      | none => rfl
      | some ts' =>
        simp [process_message_body, extract_pdv_data, hcore, truthy]

/-- An order document whose header lacks only the payment method. -/
def pdvNoFp : PdvData := ⟨some ⟨some { mkPedido [] with formaPagamento := none }⟩⟩

/-- C10 witness: a concrete order document missing only `formaPagamento`
yields no persisted rows. -/
theorem C10_witness :
    (process_message cfg0 (.ok (some samplePesquisa, some pdvNoFp, [], some 0)) 0
        "u").persisted = none :=
  C10_header_all_or_nothing.2 cfg0 pdvNoFp _ _ (some samplePesquisa) [] (some 0) 0 "u"
    rfl rfl rfl

/-- C5 counterexample: a metadata-less item ("P2") accompanied by an item
whose product ("P1") IS present in the metadata map: the matched item
reaches the broken `get_special_multiplier`, the whole message aborts, and
nothing is persisted — refuting the claim that such a message still builds
and persists its batch — while the message is still acknowledged once. -/
theorem C5_counterexample :
    (process_message cfg0 (.ok (some samplePesquisa, some (mkPdv [⟨"P1", none, some 1,
        some 10, none⟩, ⟨"P2", none, none, none, none⟩]), [("P1", mkProduto "")],
      some 0)) 0 "u").persisted = none ∧
    (process_message cfg0 (.ok (some samplePesquisa, some (mkPdv [⟨"P1", none, some 1,
        some 10, none⟩, ⟨"P2", none, none, none, none⟩]), [("P1", mkProduto "")],
      some 0)) 0 "u").acks = 1 :=
  ⟨rfl, rfl⟩

/-- C5 (amended): a line item whose product id has no metadata entry is
itself dropped harmlessly — removing it changes neither the result of
`process_pedido_items` nor the outcome of the whole message, and the message
is acknowledged exactly once — but the batch is actually persisted only when
every other item also lacks metadata: any matched item reaches the broken
`get_special_multiplier` and aborts the message with nothing persisted. -/
theorem C5_missing_metadata_item_dropped (cfg : Config) (ped : PdvPedido) (a b : String)
    (pd : ProdutoMap) (ts : ℤ) (dia uuid nv iv cn cc : String) (now : ℤ)
    (its1 its2 : List Item) (bad : Item)
    (hid : ped.id = some a) (hnum : ped.numero = some b)
    (hbad : pd.lookup bad.idProduto = none) :
    (process_pedido_items cfg { ped with itens := some (its1 ++ bad :: its2) } pd ts dia uuid
        nv iv cn cc now =
      process_pedido_items cfg { ped with itens := some (its1 ++ its2) } pd ts dia uuid
        nv iv cn cc now) ∧
    (process_message cfg (.ok (some samplePesquisa, some (mkPdv (its1 ++ bad :: its2)), pd,
        some ts)) now uuid =
      process_message cfg (.ok (some samplePesquisa, some (mkPdv (its1 ++ its2)), pd,
        some ts)) now uuid) ∧
    (process_message cfg (.ok (some samplePesquisa, some (mkPdv (its1 ++ bad :: its2)), pd,
        some ts)) now uuid).acks = 1 ∧
    ((∀ it ∈ its1 ++ its2, pd.lookup it.idProduto = none) →
      (process_message cfg (.ok (some samplePesquisa, some (mkPdv (its1 ++ bad :: its2)), pd,
          some ts)) now uuid).persisted.isSome = true) := by
  have hmk := process_pedido_items_skip_bad cfg (mkPedido (its1 ++ bad :: its2))
    (mkPedido (its1 ++ its2)) "PED1" "100" pd ts "2024-03-01" uuid "Ana" "V1" "Cli" "123"
    now bad its1 its2 rfl rfl rfl rfl rfl rfl hbad
  have hbody : process_message_body cfg (.ok (some samplePesquisa,
      some (mkPdv (its1 ++ bad :: its2)), pd, some ts)) now uuid =
      process_message_body cfg (.ok (some samplePesquisa, some (mkPdv (its1 ++ its2)), pd,
        some ts)) now uuid := by
    rw [process_message_body_mkPdv, process_message_body_mkPdv, hmk]
    exact rfl
  refine ⟨?_, ?_, rfl, ?_⟩
  · exact process_pedido_items_skip_bad cfg { ped with itens := some (its1 ++ bad :: its2) }
      { ped with itens := some (its1 ++ its2) } a b pd ts dia uuid nv iv cn cc now bad
      its1 its2 hid hnum rfl hid hnum rfl hbad
  · rw [process_message, process_message, hbody]
  · intro hall
    have hall' : ∀ it ∈ its1 ++ bad :: its2, pd.lookup it.idProduto = none := by
      intro it hit
      rcases List.mem_append.mp hit with h1 | h1
      · exact hall it (List.mem_append_left its2 h1)
      · rcases List.mem_cons.mp h1 with h2 | h2
        · rw [h2]
          exact hbad
        · exact hall it (List.mem_append_right its1 h2)
    show (process_message_body cfg (.ok (some samplePesquisa,
        some (mkPdv (its1 ++ bad :: its2)), pd, some ts)) now uuid).isSome = true
    rw [process_message_body_mkPdv,
      process_pedido_items_as_map cfg (mkPedido (its1 ++ bad :: its2)) pd ts "2024-03-01"
        uuid "Ana" "V1" "Cli" "123" now "PED1" "100" (its1 ++ bad :: its2) rfl rfl rfl,
      process_items_loop_all_unmatched cfg "PED1" "100" pd ts "2024-03-01" uuid "Ana" "V1"
        "Cli" "123" now (its1 ++ bad :: its2) hall']
    simp

/-- C5 witness: the lone item references metadata-less product "P2"; dropping
it leaves processing unchanged, the message acks once, and — every item of
the remaining (empty) list trivially lacking metadata — an order-row batch
is persisted. -/
theorem C5_witness :
    (process_message cfg0 (.ok (some samplePesquisa, some (mkPdv [⟨"P2", none, none, none,
        none⟩]), [("P1", mkProduto "")], some 0)) 0 "u" =
      process_message cfg0 (.ok (some samplePesquisa, some (mkPdv []),
        [("P1", mkProduto "")], some 0)) 0 "u") ∧
    (process_message cfg0 (.ok (some samplePesquisa, some (mkPdv [⟨"P2", none, none, none,
        none⟩]), [("P1", mkProduto "")], some 0)) 0 "u").acks = 1 ∧
    (process_message cfg0 (.ok (some samplePesquisa, some (mkPdv [⟨"P2", none, none, none,
        none⟩]), [("P1", mkProduto "")], some 0)) 0 "u").persisted.isSome = true := by
  have h := C5_missing_metadata_item_dropped cfg0 (mkPedido []) "PED1" "100"
    [("P1", mkProduto "")] 0 "d" "u" "n" "i" "c" "p" 0 [] [] ⟨"P2", none, none, none, none⟩
    rfl rfl rfl
  exact ⟨h.2.1, h.2.2.1, h.2.2.2 (by simp)⟩

/-- Spec scenario configuration: loyalty 0.02, morning 0.03, happy-hour 0. -/
def cfgScenario : Config := ⟨"proj", "src", "v1", 1/50, 3/100, 0⟩

/-- The scenario processing timestamp 2024-03-01T07:30:00Z, in minutes since
Monday 2024-02-26 00:00 UTC. -/
def tsScenario : ℤ := 6210

/-- First scenario line item: product "P1", quantity 2, unit value 10. -/
def item1 : Item := ⟨"P1", some "Product one", some 2, some 10, none⟩

/-- Second scenario line item: product "P2", quantity 1, unit value 5. -/
def item2 : Item := ⟨"P2", some "Product two", some 1, some 5, none⟩

/-- Scenario product metadata: present only for "P1", with the given notes. -/
def produtoScenario (obs : String) : ProdutoMap := [("P1", mkProduto obs)]

/-- C4 counterexample: in the spec end-to-end scenario the São Paulo local
time of 2024-03-01T07:30:00Z is 04:30 (270 minutes past local midnight),
outside the [05:00, 10:00) morning window; moreover the item of the matched
product "P1" reaches the broken `get_special_multiplier`, so the whole
message aborts: nothing is persisted, contradicting the claimed batch with
final multiplier 0.05 and the claimed order totals. -/
theorem C4_counterexample :
    ¬ (300 ≤ timeOfDay (convert_to_sao_paulo_time tsScenario) ∧
       timeOfDay (convert_to_sao_paulo_time tsScenario) < 600) ∧
    (process_message cfgScenario (.ok (some samplePesquisa, some (mkPdv [item1, item2]),
        produtoScenario "", some tsScenario)) 0 "abc123").persisted = none :=
  ⟨by decide, rfl⟩

/-- C4 (amended): in the spec end-to-end scenario the São Paulo local time
of the processing timestamp is 04:30, outside the [05:00, 10:00) morning
window (though the day is a Friday); and independently of the product notes
the matched item "P1" reaches the broken `get_special_multiplier`, so the
message produces no batch at all and is acknowledged exactly once. -/
theorem C4_amended_scenario (obs : String) (now : ℤ) :
    timeOfDay (convert_to_sao_paulo_time tsScenario) = 270 ∧
    weekday (convert_to_sao_paulo_time tsScenario) = 4 ∧
    ¬ (300 ≤ timeOfDay (convert_to_sao_paulo_time tsScenario) ∧
       timeOfDay (convert_to_sao_paulo_time tsScenario) < 600) ∧
    process_message cfgScenario (.ok (some samplePesquisa, some (mkPdv [item1, item2]),
        produtoScenario obs, some tsScenario)) now "abc123" = ⟨none, 1⟩ :=
  ⟨by decide, by decide, by decide, rfl⟩
